import Mathlib

set_option maxRecDepth 8000

/-!
# Verification of the Unity/Zira command orchestration engine

Shallow embedding of the command orchestration core of the `unity_ai`
repository: the retry wrapper `smart_invoke` (src/agent_cli.py), the
deterministic router `SystemHandler.try_handle` together with the
command handlers it dispatches to (src/core/handler_system.py,
src/core/commands/system_commands.py, src/core/commands/bookmark_commands.py),
the planning graph `GraphAgent` (src/core/handler_graph.py), and the
dispatcher `CommandDispatcher.process_command`
(src/core/command_dispatcher.py).

Python strings are modelled as Lean `String`; the embedding of the
whitespace-sensitive operations (`str.strip`, `str.split`, the `\s`
regex class) uses the ASCII whitespace set, which is the set relevant
to every input considered here.  External services (the reasoning
engine, the registry tools, the search tool, the bookmark file) are
parameters: oracles supplied to the embedded functions, so theorems
quantify over their behaviour, including the exceptions they raise.
-/

namespace UnityAI

/-- ASCII whitespace, the characters matched by Python's `\s` regex class and
stripped by `str.strip` on the ASCII range: space, tab, newline, carriage
return, vertical tab, form feed. -/
def pyIsSpace (c : Char) : Bool :=
  c.toNat = 0x20 || c.toNat = 0x09 || c.toNat = 0x0a || c.toNat = 0x0d ||
    c.toNat = 0x0b || c.toNat = 0x0c

/-- Python `str.lower()` restricted to ASCII letters (all matching in the
router is over ASCII keywords). -/
def lowerAscii (s : String) : String :=
  (s.data.map Char.toLower).asString

/-- `str.startswith(pre)`. -/
def strStartsWith (s pre : String) : Bool :=
  pre.data.isPrefixOf s.data

/-- Python string `<`: lexicographic comparison by code point. -/
def charListLt : List Char → List Char → Bool
  | [], [] => false
  | [], _ :: _ => true
  | _ :: _, [] => false
  | a :: as, b :: bs => if a = b then charListLt as bs else decide (a.toNat < b.toNat)

/-- Python `str.strip()`: drop leading and trailing whitespace. -/
def pyStrip (s : String) : String :=
  (((s.data.dropWhile pyIsSpace).reverse.dropWhile pyIsSpace).reverse).asString

/-- Python `str.strip(chars)`: drop leading and trailing characters drawn from
`chars` (used for `alias.strip("<>")` in the bookmark handlers). -/
def pyStripChars (chars : List Char) (s : String) : String :=
  (((s.data.dropWhile (fun c => chars.contains c)).reverse.dropWhile
      (fun c => chars.contains c)).reverse).asString

/-- Worker for `pySplitWs`: one left-to-right pass, carrying the current
word reversed in `acc`; whitespace runs end the current word (empty fields
are dropped), as Python's `str.split()` with no argument does. -/
def splitWsAux : List Char → List Char → List String
  | [], [] => []
  | [], acc => [acc.reverse.asString]
  | c :: cs, acc =>
    if pyIsSpace c then
      match acc with
      | [] => splitWsAux cs []
      | _ :: _ => acc.reverse.asString :: splitWsAux cs []
    else splitWsAux cs (c :: acc)

/-- Python `str.split()` with no separator: whitespace-run splitting. -/
def pySplitWs (s : String) : List String :=
  splitWsAux s.data []

/-- Join words with single spaces (`" ".join(words)`). -/
def joinWords : List String → List Char
  | [] => []
  | [w] => w.data
  | w :: ws => w.data ++ ' ' :: joinWords ws

/-- `re.sub(r"\s+", " ", s).strip()` as performed by
`CommandDispatcher.process_command` and `SystemHandler.try_handle`:
collapsing every whitespace run to a single space and trimming is the same
as joining the whitespace-separated words of `s` with single spaces. -/
def normalizeWs (s : String) : String :=
  (joinWords (pySplitWs s)).asString

/-- `"needle" in haystack` (Python substring containment). -/
def containsSubstr (needle haystack : String) : Bool :=
  decide (needle.data <:+: haystack.data)

/-- Membership in Python's `string.printable`: the 95 ASCII characters
`0x20`–`0x7e` together with `\t`, `\n`, `\r`, `\x0b`, `\x0c`.  Every
character outside this set — every other control character and every
non-ASCII character — is not printable. -/
def pyPrintable (c : Char) : Bool :=
  (0x20 ≤ c.toNat && c.toNat ≤ 0x7e) ||
    c.toNat = 0x09 || c.toNat = 0x0a || c.toNat = 0x0d ||
    c.toNat = 0x0b || c.toNat = 0x0c

/-- `contains_control_chars` from src/core/utils/data_sanitizer.py:
`any(ch not in string.printable for ch in s)`. -/
def containsControlChars (s : String) : Bool :=
  s.data.any (fun c => !pyPrintable c)

/-! ## RetryableInvoker: `smart_invoke` (src/agent_cli.py) -/

/-- `MAX_RETRIES` from src/agent_cli.py. -/
def MAX_RETRIES : Nat := 5

/-- One attempt of the wrapped reasoning-engine call: `agent.invoke` either
returns a value or raises an exception carrying a message (`str(e)`). -/
inductive InvokeOutcome where
  | ok (v : String)
  | exn (msg : String)
deriving DecidableEq, Repr

/-- Result of `smart_invoke`: a returned value, the distinguished
`RuntimeError` raised when the retry budget is exhausted, or a non-rate-limit
exception re-raised unchanged. -/
inductive SmartResult where
  | success (v : String)
  | tooManyRetries (msg : String)
  | propagated (msg : String)
deriving DecidableEq, Repr

/-- The rate-limit test of `smart_invoke`: `"429" in str(e)`. -/
def isRateLimited (o : InvokeOutcome) : Bool :=
  match o with
  | .ok _ => false
  | .exn m => containsSubstr "429" m

/-- The distinguished message of the exhaustion `RuntimeError`. -/
def tooManyRetriesMsg : String :=
  "Too many retries due to rate-limiting. Try again later."

/-- The `while retries < MAX_RETRIES` loop of `smart_invoke`, entered with the
current value of `retries`; the engine stub `agent` maps the attempt index to
that attempt's outcome.  Returns the result together with the total number of
`agent.invoke` attempts performed. -/
def smartInvokeFrom (agent : Nat → InvokeOutcome) (retries : Nat) :
    SmartResult × Nat :=
  if h : retries < MAX_RETRIES then
    match agent retries with
    | .ok v => (.success v, retries + 1)
    | .exn m =>
      if containsSubstr "429" m then smartInvokeFrom agent (retries + 1)
      else (.propagated m, retries + 1)
  else
    (.tooManyRetries tooManyRetriesMsg, retries)
termination_by MAX_RETRIES - retries
decreasing_by omega

/-- `smart_invoke(agent, user_input)`: run the retry loop from `retries = 0`. -/
def smartInvoke (agent : Nat → InvokeOutcome) : SmartResult × Nat :=
  smartInvokeFrom agent 0

/-- Engine stub that is rate-limited on the first two attempts, then
succeeds. -/
def agentTwoRateLimits : Nat → InvokeOutcome :=
  fun i => if i < 2 then .exn "HTTP 429: quota exceeded" else .ok "done"

/-- Engine stub that is rate-limited on every attempt. -/
def agentAlwaysRateLimited : Nat → InvokeOutcome :=
  fun _ => .exn "error 429: resource exhausted"

/-! ## The deterministic router (src/core/handler_system.py,
src/core/commands/system_commands.py, src/core/commands/bookmark_commands.py)

The handlers' observable actions are recorded as a trace of `Step`s.  A
`say` step records one user-facing message emission (the paired
`print`/`speak` of a message is recorded once, without the assistant-name
prefix of the `print`); debug/log-only output is not recorded. -/

inductive Step where
  | invokeTool (key arg : String)
  | search (q : String)
  | bmDispatch (sub : String)
  | osOpen (path : String)
  | saveBookmarks (bm : List (String × String))
  | say (msg : String)
deriving DecidableEq, Repr

/-- Outcome of invoking an external tool or the search callable: the result
string, or the exception it raised. -/
inductive ToolBehavior where
  | ok (result : String)
  | raise (msg : String)
deriving DecidableEq, Repr

/-- Outcome of `open(bookmarks_path).read` + `json.load` inside
`_load_bookmarks`: parsed content, `FileNotFoundError`, `JSONDecodeError`,
or any other exception (e.g. `PermissionError`), which `_load_bookmarks`
does not catch. -/
inductive LoadBehavior where
  | content (bm : List (String × String))
  | missing
  | corrupt
  | ioError (msg : String)
deriving DecidableEq, Repr

/-- What `os.path.isdir` / `os.path.isfile` report for a path. -/
inductive PathKind where
  | dir | file | neither
deriving DecidableEq, Repr

/-- A Python exception propagating out of the router. -/
inductive PyExn where
  | storageError (msg : String)
deriving DecidableEq, Repr

/-- The environment of `SystemHandler`: the keys of the `tools` dict, the
behaviour of each registry tool and of the search callable (`None` when
unavailable), the bookmark-file read outcome, filesystem facts used by the
jump handler, and the shared voice-mode flag. -/
structure RouterCtx where
  registry : List String
  tool : String → String → ToolBehavior
  searchTool : Option (String → ToolBehavior)
  load : LoadBehavior
  expand : String → String
  pathExists : String → Bool
  kind : String → PathKind
  voiceFlag : Bool

/-- `SystemCommands._invoke_tool`: reject unknown keys (returning `False`),
otherwise invoke the tool; its result is spoken on success, and every
exception is caught and converted into `f"{error_prefix} {arg}."` with
`False` returned. -/
def invokeToolModel (ctx : RouterCtx) (key arg errPrefix : String) :
    Bool × List Step :=
  if ctx.registry.contains key then
    match ctx.tool key arg with
    | .ok result => (true, [.invokeTool key arg, .say result])
    | .raise _ =>
      (false, [.invokeTool key arg, .say (errPrefix ++ " " ++ arg ++ ".")])
  else
    (false, [.say "Unrecognized tool."])

/-- `_WEBSITE_REGEX = ^open\s+website\s+(https?://\S+)$` (IGNORECASE) on the
whitespace-normalized input the router passes to its handlers: exactly three
fields, the first two the keywords, the third a single token beginning with
the scheme (case-insensitively) with at least one character after it. -/
def websiteMatch (s : String) : Option String :=
  match pySplitWs (pyStrip s) with
  | [w0, w1, w2] =>
    if lowerAscii w0 = "open" && lowerAscii w1 = "website" &&
        ((strStartsWith (lowerAscii w2) "http://" && 8 ≤ w2.length) ||
         (strStartsWith (lowerAscii w2) "https://" && 9 ≤ w2.length)) then
      some w2
    else none
  | _ => none

/-- `^<verb>\s+(.+)$` (IGNORECASE) on whitespace-normalized input, with the
group's `.strip()` already reflected by the normalization: the argument is
the rest of the line after the verb. -/
def verbMatch (verb : String) (s : String) : Option String :=
  match pySplitWs (pyStrip s) with
  | [] => none
  | w :: rest =>
    if lowerAscii w = verb && rest ≠ [] then
      some (String.intercalate " " rest)
    else none

/-- `_WEATHER_REGEX = ^(?:weather(?:\s+in)?\s+)(.+)$` (IGNORECASE) on
whitespace-normalized input: the greedy optional `in` is consumed whenever a
location still remains after it (so `weather in` alone yields location
`in`). -/
def weatherMatch (s : String) : Option String :=
  match pySplitWs (pyStrip s) with
  | [] => none
  | w :: rest =>
    if lowerAscii w = "weather" then
      match rest with
      | [] => none
      | r0 :: rtail =>
        if lowerAscii r0 = "in" && rtail ≠ [] then
          some (String.intercalate " " rtail)
        else some (String.intercalate " " rest)
    else none

/-- The shell-sensitive characters rejected by the open/close/weather
handlers: `;`, `&`, `|`, `$`, backtick, `<`, `>`. -/
def shellMetachars : List Char := [';', '&', '|', '$', '\x60', '<', '>']

/-- `any(c in arg for c in [';', '&', '|', '$', backtick, '<', '>'])`. -/
def hasShellMetachar (s : String) : Bool :=
  s.data.any (fun c => shellMetachars.contains c)

/-- `SystemCommands.handle_open_website`. -/
def handleOpenWebsite (ctx : RouterCtx) (s : String) : Bool × List Step :=
  match websiteMatch s with
  | none => (false, [])
  | some url =>
    if 2083 < url.length then
      (true, [.say "That URL is too long to open safely."])
    else
      invokeToolModel ctx "open_website" url "Sorry, I couldn't open the website"

/-- `SystemCommands.handle_open_application`: skip URL-looking arguments
(case-sensitive prefix test, as in the source) so the website handler owns
them, reject shell metacharacters, otherwise invoke the tool. -/
def handleOpenApplication (ctx : RouterCtx) (s : String) : Bool × List Step :=
  match verbMatch "open" s with
  | none => (false, [])
  | some app =>
    if strStartsWith app "http://" || strStartsWith app "https://" then (false, [])
    else if hasShellMetachar app then
      (true, [.say "Invalid application name. Please avoid special characters."])
    else
      invokeToolModel ctx "open_application" app
        "Sorry, I couldn't open the application"

/-- `SystemCommands.handle_close_application`. -/
def handleCloseApplication (ctx : RouterCtx) (s : String) : Bool × List Step :=
  match verbMatch "close" s with
  | none => (false, [])
  | some app =>
    if hasShellMetachar app then
      (true, [.say "Invalid application name. Please avoid special characters."])
    else
      invokeToolModel ctx "close_application" app
        "Sorry, I couldn't close the application"

/-- `SystemCommands.handle_get_weather`. -/
def handleGetWeather (ctx : RouterCtx) (s : String) : Bool × List Step :=
  match weatherMatch s with
  | none => (false, [])
  | some loc =>
    if hasShellMetachar loc then
      (true, [.say "Invalid location. Please avoid special characters."])
    else
      invokeToolModel ctx "get_weather" loc "Sorry, I couldn't retrieve weather for"

/-- `SystemCommands.handle_search`: the search callable's errors are caught
and the handler reports `True` in every matched branch. -/
def handleSearch (ctx : RouterCtx) (s : String) : Bool × List Step :=
  match verbMatch "search" s with
  | none => (false, [])
  | some q =>
    if q = "" then (true, [.say "Please provide a search query."])
    else
      match ctx.searchTool with
      | none => (true, [.say "Search functionality is not available."])
      | some f =>
        match f q with
        | .ok r => (true, [.search q, .say r])
        | .raise _ => (true, [.search q, .say "Sorry, I couldn't perform the search."])

/-- `^(enable|activate)\s+voice\s+mode$` resp. the disable variant, on
whitespace-normalized input. -/
def voiceCmdMatch (verbs : List String) (s : String) : Bool :=
  match pySplitWs (pyStrip s) with
  | [w0, w1, w2] =>
    verbs.contains (lowerAscii w0) && lowerAscii w1 = "voice" &&
      lowerAscii w2 = "mode"
  | _ => false

/-- `SystemCommands.handle_enable_voice_mode`: returns the updated flag, the
handled bool, and the emitted message. -/
def handleEnableVoiceMode (flag : Bool) (s : String) : Bool × Bool × List Step :=
  if voiceCmdMatch ["enable", "activate"] s then
    if flag then (flag, true, [.say "Voice mode is already enabled."])
    else (true, true,
      [.say "Voice mode enabled. Press and hold your push-to-talk key to speak."])
  else (flag, false, [])

/-- `SystemCommands.handle_disable_voice_mode`. -/
def handleDisableVoiceMode (flag : Bool) (s : String) : Bool × Bool × List Step :=
  if voiceCmdMatch ["disable", "deactivate", "exit"] s then
    if !flag then (flag, true, [.say "Voice mode is already disabled."])
    else (false, true, [.say "Voice mode disabled. Returning to text input."])
  else (flag, false, [])

/-- The help text printed by `SystemHandler.try_handle`. -/
def helpText : String :=
  "You can say:\n" ++
  "  • zira bookmark add <alias> <path>\n" ++
  "  • zira bookmark list\n" ++
  "  • zira bookmark jump <alias>\n" ++
  "  • zira bookmark remove <alias>\n" ++
  "  • zira bookmark clear [<alias>]\n" ++
  "  • zira open <application or website>\n" ++
  "  • zira close <application>\n" ++
  "  • zira weather in <city>\n" ++
  "  • zira search <query>\n" ++
  "  • enable voice mode / disable voice mode\n" ++
  "Type any other question and I’ll try to help via LLM."

/-- The usage text printed for `zira bookmark` with no sub-command. -/
def bookmarkUsageText : String :=
  "Usage:\n" ++
  "  zira bookmark add <alias> <path>\n" ++
  "  zira bookmark list\n" ++
  "  zira bookmark jump <alias>\n" ++
  "  zira bookmark remove <alias>\n" ++
  "  zira bookmark clear [<alias>]"

/-! ### Bookmark commands (src/core/commands/bookmark_commands.py) -/

/-- The `<` and `>` wrappers stripped from aliases and paths. -/
def angleBrackets : List Char := ['<', '>']

/-- `BookmarkCommands._load_bookmarks`: file content on success, `{}` when the
file is absent, `{}` plus a warning (and a rename attempt) when the JSON is
corrupt; any other exception from the read propagates. -/
def loadBookmarks (ctx : RouterCtx) :
    Except PyExn (List (String × String) × List Step) :=
  match ctx.load with
  | .content bm => .ok (bm, [])
  | .missing => .ok ([], [])
  | .corrupt =>
    .ok ([], [.say ("Warning: Could not decode bookmarks.json. Renaming to " ++
      "bookmarks.json.bak and starting with an empty bookmark list.")])
  | .ioError m => .error (.storageError m)

/-- `BookmarkCommands.handle_add`.  `_save_bookmarks` catches its own
exceptions, so a save is recorded only as the attempted write. -/
def handleBookmarkAdd (ctx : RouterCtx) (parts : List String) :
    Except PyExn (List Step) :=
  if parts.length < 5 then .ok [.say "Usage: zira bookmark add <alias> <path>"]
  else
    let aliasName := pyStrip (pyStripChars angleBrackets (pyStrip (parts.getD 3 "")))
    let path₀ := pyStrip (pyStripChars angleBrackets
      (pyStrip (String.intercalate " " (parts.drop 4))))
    if aliasName = "" then .ok [.say "Bookmark alias cannot be empty."]
    else if aliasName.data.contains ' ' then
      .ok [.say "Invalid alias: alias cannot contain spaces."]
    else if path₀ = "" then .ok [.say "Bookmark path cannot be empty."]
    else
      let path := ctx.expand path₀
      match loadBookmarks ctx with
      | .error e => .error e
      | .ok (bm, lsteps) =>
        if (bm.lookup aliasName).isSome then
          .ok (lsteps ++ [.say ("Bookmark '" ++ aliasName ++ "' already exists. " ++
            "To overwrite, remove it first or choose a new alias.")])
        else
          .ok (lsteps ++ [.saveBookmarks (bm ++ [(aliasName, path)]),
            .say ("Bookmark '" ++ aliasName ++ "' added for path: " ++ path)])

/-- `BookmarkCommands.handle_list`. -/
def handleBookmarkList (ctx : RouterCtx) (_parts : List String) :
    Except PyExn (List Step) :=
  match loadBookmarks ctx with
  | .error e => .error e
  | .ok (bm, lsteps) =>
    if bm.isEmpty then .ok (lsteps ++ [.say "You haven't saved any bookmarks yet."])
    else
      .ok (lsteps ++ bm.map (fun p => Step.say (p.1 ++ ": " ++ p.2)) ++
        [.say "Here are your saved bookmarks."])

/-- `BookmarkCommands.handle_jump`: the OS-level open is wrapped in
`try/except` branches that catch every exception, so it is recorded only as
the attempted `osOpen` (identical for the dir and file branches, which differ
only in platform dispatch). -/
def handleBookmarkJump (ctx : RouterCtx) (parts : List String) :
    Except PyExn (List Step) :=
  if parts.length < 4 then .ok [.say "Usage: zira bookmark jump <alias>"]
  else
    let aliasName := pyStrip (pyStripChars angleBrackets (pyStrip (parts.getD 3 "")))
    if aliasName = "" then .ok [.say "Please provide a valid bookmark alias."]
    else
      match loadBookmarks ctx with
      | .error e => .error e
      | .ok (bm, lsteps) =>
        match bm.lookup aliasName with
        | none => .ok (lsteps ++ [.say ("Bookmark '" ++ aliasName ++ "' not found.")])
        | some path₀ =>
          let opening := [Step.say ("Opening bookmark '" ++ aliasName ++ "'."),
            Step.say ("Attempting to open: " ++ path₀)]
          let path := ctx.expand path₀
          if !ctx.pathExists path then
            .ok (lsteps ++ opening ++
              [.say ("Error: Path '" ++ path ++ "' does not exist.")])
          else
            match ctx.kind path with
            | .dir => .ok (lsteps ++ opening ++ [.osOpen path])
            | .file => .ok (lsteps ++ opening ++ [.osOpen path])
            | .neither =>
              .ok (lsteps ++ opening ++
                [.say ("Error: Path '" ++ path ++ "' is not a file or directory.")])

/-- `BookmarkCommands.handle_remove` (`dict.pop` = drop the key). -/
def handleBookmarkRemove (ctx : RouterCtx) (parts : List String) :
    Except PyExn (List Step) :=
  if parts.length < 4 then .ok [.say "Usage: zira bookmark remove <alias>"]
  else
    let aliasName := pyStrip (pyStripChars angleBrackets (pyStrip (parts.getD 3 "")))
    if aliasName = "" then .ok [.say "Please provide a valid bookmark alias to remove."]
    else
      match loadBookmarks ctx with
      | .error e => .error e
      | .ok (bm, lsteps) =>
        match bm.lookup aliasName with
        | none =>
          .ok (lsteps ++ [.say ("Bookmark '" ++ aliasName ++ "' not found. Nothing to remove.")])
        | some removed =>
          .ok (lsteps ++ [.saveBookmarks (bm.filter (fun p => p.1 != aliasName)),
            .say ("Bookmark '" ++ aliasName ++ "' for path '" ++ removed ++
              "' has been removed.")])

/-- The clear-all branch shared by `handle_clear`. -/
def clearAllBookmarks (ctx : RouterCtx) : Except PyExn (List Step) :=
  match loadBookmarks ctx with
  | .error e => .error e
  | .ok (bm, lsteps) =>
    if bm.isEmpty then .ok (lsteps ++ [.say "There are no bookmarks to clear."])
    else .ok (lsteps ++ [.saveBookmarks [], .say "All bookmarks have been cleared."])

/-- `BookmarkCommands.handle_clear` (its debug print is log-only and not
recorded). -/
def handleBookmarkClear (ctx : RouterCtx) (parts : List String) :
    Except PyExn (List Step) :=
  if parts.length ≤ 3 then clearAllBookmarks ctx
  else
    let aliasName := pyStrip (pyStripChars angleBrackets
      (pyStrip (String.intercalate " " (parts.drop 3))))
    if aliasName = "" then clearAllBookmarks ctx
    else
      match loadBookmarks ctx with
      | .error e => .error e
      | .ok (bm, lsteps) =>
        match bm.lookup aliasName with
        | none =>
          .ok (lsteps ++ [.say ("Bookmark '" ++ aliasName ++ "' not found. Nothing to clear.")])
        | some removed =>
          .ok (lsteps ++ [.saveBookmarks (bm.filter (fun p => p.1 != aliasName)),
            .say ("Bookmark '" ++ aliasName ++ "' for path '" ++ removed ++
              "' has been cleared.")])

/-! ### `difflib.get_close_matches` (used for bookmark sub-command fuzzing) -/

/-- Length of the longest common run at the heads of two character lists. -/
def commonRun : List Char → List Char → Nat
  | a :: as, b :: bs => if a = b then commonRun as bs + 1 else 0
  | _, _ => 0

/-- `SequenceMatcher.find_longest_match` with no junk: a matching block
`(i, j, k)` with `a[i:i+k] = b[j:j+k]`, `k` maximal, then `i` minimal, then
`j` minimal; `(0, 0, 0)` when nothing matches.  Scanning index pairs in
`i`-major ascending order and replacing only on a strictly longer run
realizes exactly this tie-breaking. -/
def bestMatchAux (a b : List Char) : Nat × Nat × Nat :=
  ((List.range a.length).flatMap
      (fun i => (List.range b.length).map (fun j => (i, j)))).foldl
    (fun best ij =>
      let k := commonRun (a.drop ij.1) (b.drop ij.2)
      if best.2.2 < k then (ij.1, ij.2, k) else best)
    (0, 0, 0)

/-- Total matched size `M` over `SequenceMatcher.get_matching_blocks`: take
the longest match, recurse left and right of it.  `fuel` bounds the recursion
depth; `a.length + 1` always suffices because each recursive slice is
strictly shorter. -/
def matchTotalFuel : Nat → List Char → List Char → Nat
  | 0, _, _ => 0
  | fuel + 1, a, b =>
    let m := bestMatchAux a b
    if m.2.2 = 0 then 0
    else
      matchTotalFuel fuel (a.take m.1) (b.take m.2.1) + m.2.2 +
        matchTotalFuel fuel (a.drop (m.1 + m.2.2)) (b.drop (m.2.1 + m.2.2))

/-- `M` for two strings. -/
def matchTotal (a b : List Char) : Nat :=
  matchTotalFuel (a.length + 1) a b

/-- `SequenceMatcher.ratio() >= cutoff` for cutoff `0.75`:
`2M / (|w| + |x|) >= 3/4`, decided exactly over the integers (the float
ratios of these tiny fractions order exactly as the rationals do). -/
def ratioMeetsCutoff (w x : String) : Bool :=
  3 * (w.length + x.length) ≤ 8 * matchTotal w.data x.data

/-- The `(ratio, word)` tuple ordering of `heapq.nlargest` inside
`get_close_matches`: ratios compared exactly by cross-multiplication, ties
broken by the word itself (code-point order, larger word preferred). -/
def closerMatch (w x y : String) : Bool :=
  let mx := matchTotal w.data x.data
  let my := matchTotal w.data y.data
  let tx := w.length + x.length
  let ty := w.length + y.length
  if mx * ty = my * tx then charListLt y.data x.data else decide (my * tx < mx * ty)

/-- `difflib.get_close_matches(word, possibilities, n=1, cutoff=0.75)`:
the best candidate meeting the cutoff, if any. -/
def getCloseMatches1 (word : String) (possibilities : List String) :
    Option String :=
  (possibilities.filter (fun x => ratioMeetsCutoff word x)).foldl
    (fun best x =>
      match best with
      | none => some x
      | some b => if closerMatch word x b then some x else some b)
    none

/-- The keys of `SystemHandler._bookmark_registry`, in insertion order. -/
def bookmarkSubcommands : List String := ["add", "list", "jump", "remove", "clear"]

/-- Dispatch to the registered bookmark handler (total because `sub` is always
drawn from `bookmarkSubcommands`). -/
def runBookmarkHandler (ctx : RouterCtx) (sub : String) (parts : List String) :
    Except PyExn (List Step) :=
  if sub = "add" then handleBookmarkAdd ctx parts
  else if sub = "list" then handleBookmarkList ctx parts
  else if sub = "jump" then handleBookmarkJump ctx parts
  else if sub = "remove" then handleBookmarkRemove ctx parts
  else if sub = "clear" then handleBookmarkClear ctx parts
  else .ok []

/-- The bookmark block of `SystemHandler.try_handle` (reached when the input
has at least the two `zira bookmark` lead tokens): usage text for a missing
sub-command, else exact-or-fuzzy resolution via `get_close_matches` with an
interpretation notice on a non-exact match, else the unknown-sub-command
report.  Every branch is handled. -/
def bookmarkBranch (ctx : RouterCtx) (parts : List String) :
    Except PyExn (List Step) :=
  if parts.length < 3 then .ok [.say bookmarkUsageText]
  else
    let rawSub := lowerAscii (parts.getD 2 "")
    match getCloseMatches1 rawSub bookmarkSubcommands with
    | some chosen =>
      let notice := if chosen ≠ rawSub then
          [Step.say ("Interpreting '" ++ rawSub ++ "' as '" ++ chosen ++ "'.")]
        else []
      match runBookmarkHandler ctx chosen parts with
      | .error e => .error e
      | .ok hsteps => .ok (notice ++ [.bmDispatch chosen] ++ hsteps)
    | none => .ok [.say ("Unknown bookmark command: '" ++ rawSub ++ "'")]

/-- The result of `SystemHandler.try_handle`: the voice flag after the call,
the returned bool, and the trace of observable actions. -/
structure RouteResult where
  voiceFlag : Bool
  handled : Bool
  steps : List Step
deriving DecidableEq, Repr

/-- `SystemHandler.try_handle`: normalize whitespace, then test the handlers
in the source's fixed order, accumulating the steps of every handler invoked
(a handler that matched but returned `False` — a failed `_invoke_tool` — has
already emitted its steps and the scan continues). -/
def tryHandle (ctx : RouterCtx) (commandText : String) : Except PyExn RouteResult :=
  let s := normalizeWs commandText
  let lower := lowerAscii s
  let parts := pySplitWs s
  let r₁ := handleEnableVoiceMode ctx.voiceFlag s
  if r₁.2.1 then .ok ⟨r₁.1, true, r₁.2.2⟩ else
  let r₂ := handleDisableVoiceMode r₁.1 s
  if r₂.2.1 then .ok ⟨r₂.1, true, r₁.2.2 ++ r₂.2.2⟩ else
  let acc₀ := r₁.2.2 ++ r₂.2.2
  let flag := r₂.1
  if lower = "zira help" || lower = "help zira" || lower = "help" then
    .ok ⟨flag, true, acc₀ ++ [.say helpText]⟩
  else
  let r₃ := handleOpenWebsite ctx s
  if r₃.1 then .ok ⟨flag, true, acc₀ ++ r₃.2⟩ else
  let r₄ := handleOpenApplication ctx s
  if r₄.1 then .ok ⟨flag, true, acc₀ ++ r₃.2 ++ r₄.2⟩ else
  let r₅ := handleCloseApplication ctx s
  if r₅.1 then .ok ⟨flag, true, acc₀ ++ r₃.2 ++ r₄.2 ++ r₅.2⟩ else
  let r₆ := handleGetWeather ctx s
  if r₆.1 then .ok ⟨flag, true, acc₀ ++ r₃.2 ++ r₄.2 ++ r₅.2 ++ r₆.2⟩ else
  let r₇ := handleSearch ctx s
  if r₇.1 then .ok ⟨flag, true, acc₀ ++ r₃.2 ++ r₄.2 ++ r₅.2 ++ r₆.2 ++ r₇.2⟩ else
  let acc := acc₀ ++ r₃.2 ++ r₄.2 ++ r₅.2 ++ r₆.2 ++ r₇.2
  if 2 ≤ parts.length && lowerAscii (parts.getD 0 "") = "zira" &&
      lowerAscii (parts.getD 1 "") = "bookmark" then
    match bookmarkBranch ctx parts with
    | .error e => .error e
    | .ok bsteps => .ok ⟨flag, true, acc ++ bsteps⟩
  else
    .ok ⟨flag, false, acc⟩

/-! ## The planning graph (src/core/handler_graph.py) -/

/-- A tool-call request produced by the reasoning engine. -/
structure ToolCall where
  name : String
  args : String
deriving DecidableEq, Repr

/-- A message in the graph state: `HumanMessage`, `AIMessage` (with its
`tool_calls` list), or `ToolMessage`. -/
inductive Msg where
  | human (content : String)
  | ai (content : String) (toolCalls : List ToolCall)
  | tool (content : String)
deriving DecidableEq, Repr

/-- Behaviour of one reasoning-engine call (`llm_with_tools.ainvoke`): a
reply, a `TooManyRequests` rate-limit exception, or any other exception. -/
inductive LLMBehavior where
  | reply (content : String) (toolCalls : List ToolCall)
  | raiseRateLimit
  | raiseOther (msg : String)
deriving DecidableEq, Repr

/-- The `AgentState` of the graph. -/
structure GState where
  messages : List Msg
  lastParseStatus : String
deriving DecidableEq, Repr

/-- Error text produced by `_handle_llm_error` for `TooManyRequests`. -/
def rateLimitErrorMsg : String :=
  "Error: Gemini is being rate-limited. Please try again in a few seconds."

/-- Error text produced by `_handle_llm_error` for any other exception. -/
def genericLLMErrorMsg : String :=
  "Error: an unexpected issue occurred in the reasoning engine."

/-- `GraphAgent._call_llm_node`: invoke the engine on the current history;
both exception branches are converted into error `AIMessage`s. -/
def callLLMNode (llm : List Msg → LLMBehavior) (st : GState) : GState :=
  match llm st.messages with
  | .reply c tcs => { st with messages := st.messages ++ [.ai c tcs] }
  | .raiseRateLimit => { st with messages := st.messages ++ [.ai rateLimitErrorMsg []] }
  | .raiseOther _ => { st with messages := st.messages ++ [.ai genericLLMErrorMsg []] }

/-- `GraphAgent._is_final_answer`: route to `Respond` only for a tool-call-free
`AIMessage` whose non-empty content, stripped and lowered, starts with the
`final answer:` marker; everything else continues to `ParseAction`. -/
def isFinalAnswerRoute (st : GState) : String :=
  match st.messages.getLast? with
  | none => "continue"
  | some (.ai c tcs) =>
    if tcs ≠ [] then "continue"
    else if c ≠ "" && strStartsWith (lowerAscii (pyStrip c)) "final answer:" then
      "respond"
    else "continue"
  | some _ => "continue"

/-- The synthetic message appended by `_parse_and_route_action_node` when the
engine's output holds neither a tool call nor a final answer. -/
def parseErrorMsg : String :=
  "Error: The agent could not determine a valid tool action or final answer."

/-- `GraphAgent._parse_and_route_action_node`. -/
def parseActionNode (st : GState) : GState :=
  match st.messages.getLast? with
  | none =>
    { st with
      messages := st.messages ++ [.ai "Error: No LLM output to parse for action." []]
      lastParseStatus := "respond_with_error" }
  | some (.ai _ (_ :: _)) => { st with lastParseStatus := "tool_call_found" }
  | some _ =>
    { st with
      messages := st.messages ++ [.ai parseErrorMsg []]
      lastParseStatus := "respond_with_error" }

/-- The prebuilt langgraph `ToolNode`: execute each requested call and append
one `ToolMessage` per call in request order; tool lookup failures and tool
exceptions are already converted into the message text by the node. -/
def toolExecutorNode (tool : ToolCall → String) (st : GState) : GState :=
  match st.messages.getLast? with
  | some (.ai _ tcs) =>
    { st with messages := st.messages ++ tcs.map (fun tc => Msg.tool (tool tc)) }
  | _ => st

/-- `re.sub(r"(?i)^Final Answer:\s*", "", c).strip()`: the marker is removed
only when it sits at the very start of the content. -/
def stripFinalAnswerMarker (c : String) : String :=
  if lowerAscii (c.take 13) = "final answer:" then pyStrip (c.drop 13)
  else pyStrip c

/-- The replacement text used when the cleaned reply holds control
characters. -/
def sanitizedNotice : String :=
  "[Response contained invalid characters and was sanitized.]"

/-- `GraphAgent._respond_to_user`: the text printed/spoken to the user. -/
def respondNodeText (st : GState) : String :=
  match st.messages.getLast? with
  | none => "I'm not sure how to respond."
  | some m =>
    let cleaned :=
      match m with
      | .ai c _ => stripFinalAnswerMarker c
      | .human _ => "I'm experiencing an internal communication issue."
      | .tool c => "Tool result processed, but no final answer: " ++ c
    if containsControlChars cleaned then sanitizedNotice else cleaned

/-- The nodes of the compiled graph. -/
inductive GNode where
  | userInput | llmPlanning | parseAction | toolExec | respond
deriving DecidableEq, Repr

/-- Result of driving the compiled graph: the `Respond` text with the final
history and engine-call count, or the `GraphRecursionError` langgraph raises
when the step budget runs out before `Respond` ends the graph. -/
inductive GraphResult where
  | finished (text : String) (messages : List Msg) (engineCalls : Nat)
  | recursionLimit (messages : List Msg) (engineCalls : Nat)
deriving DecidableEq, Repr

/-- Drive the compiled graph along the edges declared in `GraphAgent.__init__`,
one node execution per langgraph super-step; `fuel` is the remaining
`recursion_limit` budget (conditional edges are evaluated within the writing
node's step and cost nothing). -/
def runGraph (llm : List Msg → LLMBehavior) (tool : ToolCall → String) :
    Nat → GNode → GState → Nat → GraphResult
  | 0, _, st, calls => .recursionLimit st.messages calls
  | fuel + 1, node, st, calls =>
    match node with
    | .userInput => runGraph llm tool fuel .llmPlanning st calls
    | .llmPlanning =>
      let st' := callLLMNode llm st
      let next := if isFinalAnswerRoute st' = "respond" then GNode.respond
        else GNode.parseAction
      runGraph llm tool fuel next st' (calls + 1)
    | .parseAction =>
      let st' := parseActionNode st
      let next := if st'.lastParseStatus = "tool_call_found" then GNode.toolExec
        else GNode.respond
      runGraph llm tool fuel next st' calls
    | .toolExec => runGraph llm tool fuel .llmPlanning (toolExecutorNode tool st) calls
    | .respond => .finished (respondNodeText st) st.messages calls

/-- The rejection message for unprintable input in `GraphAgent.run`. -/
def invalidInputMsg : String :=
  "Invalid input detected—please use standard characters only."

/-- The message of the catch-all `except Exception` branch of
`GraphAgent.run`. -/
def graphErrorMsg : String :=
  "An error occurred while processing your request. Please try again."

/-- Default `Config.AGENT_MAX_ITERATIONS` (src/core/config.py). -/
def AGENT_MAX_ITERATIONS : Nat := 10

/-- Observable outcome of `GraphAgent.run`: the text delivered to the user,
the number of reasoning-engine invocations, and the thread's message history
afterwards. -/
structure RunResult where
  text : String
  engineCalls : Nat
  messages : List Msg
deriving DecidableEq, Repr

/-- `GraphAgent.run`: reject input holding unprintable characters before the
graph starts; otherwise stream the graph with
`recursion_limit := AGENT_MAX_ITERATIONS` over the checkpointed `history`
(the new `HumanMessage` is merged onto it by the checkpointer), converting
every exception — notably `GraphRecursionError` — into the generic error
message. -/
def graphAgentRun (llm : List Msg → LLMBehavior) (tool : ToolCall → String)
    (limit : Nat) (history : List Msg) (userInput : String) : RunResult :=
  if containsControlChars userInput then ⟨invalidInputMsg, 0, history⟩
  else
    match runGraph llm tool limit .userInput ⟨history ++ [.human userInput], ""⟩ 0 with
    | .finished text msgs calls => ⟨text, calls, msgs⟩
    | .recursionLimit msgs calls => ⟨graphErrorMsg, calls, msgs⟩

/-! ## The dispatcher (src/core/command_dispatcher.py) -/

/-- Everything a `CommandDispatcher` call depends on: the router environment,
the reasoning-engine and agent-tool behaviour, the configured iteration
limit, and the session's checkpointed history. -/
structure DispatchCtx where
  router : RouterCtx
  llm : List Msg → LLMBehavior
  agentTool : ToolCall → String
  limit : Nat
  history : List Msg

/-- Observable outcome of one `process_command` call. -/
structure ProcOutcome where
  routerSteps : List Step
  handled : Bool
  voiceFlag : Bool
  graphRan : Bool
  graphText : Option String
  engineCalls : Nat
  messages : List Msg
deriving DecidableEq, Repr

/-- `CommandDispatcher.process_command`: normalize whitespace, try the
deterministic router, and only on a miss run the planning graph.  Exceptions
escaping `try_handle` propagate to the caller — the method has no handler of
its own. -/
def processCommand (ctx : DispatchCtx) (rawText : String) : Except PyExn ProcOutcome :=
  let sanitized := normalizeWs rawText
  match tryHandle ctx.router sanitized with
  | .error e => .error e
  | .ok r =>
    if r.handled then
      .ok ⟨r.steps, true, r.voiceFlag, false, none, 0, ctx.history⟩
    else
      let g := graphAgentRun ctx.llm ctx.agentTool ctx.limit ctx.history sanitized
      .ok ⟨r.steps, false, r.voiceFlag, true, some g.text, g.engineCalls, g.messages⟩

/-! ## Concrete stubs used by witnesses -/

/-- A benign router environment: the four registry tools present and
succeeding, a working search callable, an empty well-formed bookmark file. -/
def stubRouterCtx : RouterCtx where
  registry := ["open_website", "open_application", "close_application", "get_weather"]
  tool := fun _ arg => .ok ("ok: " ++ arg)
  searchTool := some fun q => .ok ("results: " ++ q)
  load := .content []
  expand := fun p => p
  pathExists := fun _ => true
  kind := fun _ => .dir
  voiceFlag := false

/-- A benign dispatcher environment over `stubRouterCtx`. -/
def stubDispatchCtx : DispatchCtx where
  router := stubRouterCtx
  llm := fun _ => .reply "Final Answer: ok" []
  agentTool := fun _ => "tool-ok"
  limit := AGENT_MAX_ITERATIONS
  history := []

/-- The dispatcher environment in which reading the bookmarks file raises a
`PermissionError` (an exception `_load_bookmarks` does not handle). -/
def permissionDeniedCtx : DispatchCtx :=
  { stubDispatchCtx with
    router := { stubRouterCtx with
      load := .ioError "PermissionError: [Errno 13] Permission denied: bookmarks.json" } }

/-- Engine stub that always requests a single no-op tool call and never
returns a final answer. -/
def llmAlwaysToolCall : List Msg → LLMBehavior :=
  fun _ => .reply "" [⟨"noop", ""⟩]

/-- Engine stub whose reply bears the final-answer marker preceded by a
space. -/
def llmLeadingSpaceFinal : List Msg → LLMBehavior :=
  fun _ => .reply " Final Answer: hi" []

/-! ### Lemmas about the retry loop -/

theorem smartInvokeFrom_skip (agent : Nat → InvokeOutcome) (r : Nat)
    (hr : r < MAX_RETRIES) (hrl : isRateLimited (agent r) = true) :
    smartInvokeFrom agent r = smartInvokeFrom agent (r + 1) := by
  conv_lhs => rw [smartInvokeFrom]
  rcases ho : agent r with v | m
  · rw [ho] at hrl; simp [isRateLimited] at hrl
  · rw [ho] at hrl
    simp only [isRateLimited] at hrl
    simp [hr, ho, hrl]

theorem smartInvokeFrom_advance (agent : Nat → InvokeOutcome) :
    ∀ (n r : Nat), (∀ i, r ≤ i → i < r + n → isRateLimited (agent i) = true) →
      r + n ≤ MAX_RETRIES →
      smartInvokeFrom agent r = smartInvokeFrom agent (r + n) := by
  intro n
  induction n with
  | zero => intro r _ _; rfl
  | succ n ih =>
    intro r hrl hle
    have hr : r < MAX_RETRIES := by omega
    have h1 : isRateLimited (agent r) = true := by
      exact hrl r (Nat.le_refl r) (by omega)
    rw [smartInvokeFrom_skip agent r hr h1]
    have := ih (r + 1) (fun i h1 h2 => hrl i (by omega) (by omega)) (by omega)
    rw [this]
    congr 1
    omega

/-! ### Whitespace splitting: basic lemmas -/

theorem splitWsAux_all_space : ∀ (w acc : List Char), w.all pyIsSpace = true →
    splitWsAux w acc = splitWsAux [] acc := by
  intro w
  induction w with
  | nil => intro acc _; rfl
  | cons x xs ih =>
    intro acc hall
    rw [List.all_cons, Bool.and_eq_true] at hall
    obtain ⟨hx, hxs⟩ := hall
    cases acc with
    | nil =>
      simp only [splitWsAux, hx, if_true]
      rw [ih [] hxs]
      rfl
    | cons a as =>
      simp only [splitWsAux, hx, if_true]
      rw [ih [] hxs]
      rfl

theorem splitWsAux_append_space : ∀ (l w acc : List Char),
    w.all pyIsSpace = true → splitWsAux (l ++ w) acc = splitWsAux l acc := by
  intro l
  induction l with
  | nil =>
    intro w acc h
    simpa using splitWsAux_all_space w acc h
  | cons c cs ih =>
    intro w acc h
    by_cases hc : pyIsSpace c = true
    · cases acc with
      | nil =>
        simp only [List.cons_append, splitWsAux, hc, if_true, List.append_eq]
        exact ih w [] h
      | cons a as =>
        simp only [List.cons_append, splitWsAux, hc, if_true, List.append_eq]
        rw [ih w [] h]
    · rw [Bool.not_eq_true] at hc
      simp only [List.cons_append, splitWsAux, hc, Bool.false_eq_true, if_false]
      exact ih w (c :: acc) h

theorem splitWsAux_word : ∀ (w rest acc : List Char),
    w.all (fun c => !pyIsSpace c) = true →
    splitWsAux (w ++ rest) acc = splitWsAux rest (w.reverse ++ acc) := by
  intro w
  induction w with
  | nil => intro rest acc _; simp
  | cons c cs ih =>
    intro rest acc h
    rw [List.all_cons, Bool.and_eq_true] at h
    obtain ⟨hc, hcs⟩ := h
    have hc' : pyIsSpace c = false := by simpa using hc
    simp only [List.cons_append, splitWsAux, hc', Bool.false_eq_true, if_false,
      List.append_eq]
    rw [ih rest (c :: acc) hcs]
    congr 1
    simp

theorem splitWsAux_tokens : ∀ (l acc : List Char),
    acc.all (fun c => !pyIsSpace c) = true →
    ∀ w ∈ splitWsAux l acc,
      w.data ≠ [] ∧ w.data.all (fun c => !pyIsSpace c) = true := by
  intro l
  induction l with
  | nil =>
    intro acc hacc w hw
    cases acc with
    | nil => simp [splitWsAux] at hw
    | cons a as =>
      simp only [splitWsAux, List.mem_singleton] at hw
      subst hw
      refine ⟨?_, ?_⟩
      · rw [show ((a :: as).reverse.asString).data = (a :: as).reverse from rfl]
        simp
      · rw [show ((a :: as).reverse.asString).data = (a :: as).reverse from rfl,
          List.all_reverse]
        exact hacc
  | cons c cs ih =>
    intro acc hacc w hw
    by_cases hc : pyIsSpace c = true
    · cases acc with
      | nil =>
        simp only [splitWsAux, hc, if_true] at hw
        exact ih [] rfl w hw
      | cons a as =>
        simp only [splitWsAux, hc, if_true, List.mem_cons] at hw
        rcases hw with hw | hw
        · subst hw
          refine ⟨?_, ?_⟩
          · rw [show ((a :: as).reverse.asString).data = (a :: as).reverse from rfl]
            simp
          · rw [show ((a :: as).reverse.asString).data = (a :: as).reverse from rfl,
              List.all_reverse]
            exact hacc
        · exact ih [] rfl w hw
    · rw [Bool.not_eq_true] at hc
      simp only [splitWsAux, hc, Bool.false_eq_true, if_false] at hw
      refine ih (c :: acc) ?_ w hw
      rw [List.all_cons, Bool.and_eq_true]
      exact ⟨by simp [hc], hacc⟩

theorem splitWsAux_joinWords : ∀ (ws : List String),
    (∀ w ∈ ws, w.data ≠ [] ∧ w.data.all (fun c => !pyIsSpace c) = true) →
    splitWsAux (joinWords ws) [] = ws := by
  intro ws
  induction ws with
  | nil => intro _; rfl
  | cons w ws ih =>
    intro h
    obtain ⟨hne, hall⟩ := h w (List.mem_cons_self w ws)
    cases ws with
    | nil =>
      show splitWsAux w.data [] = [w]
      have hword := splitWsAux_word w.data [] [] hall
      rw [List.append_nil, List.append_nil] at hword
      rcases hd : w.data.reverse with _ | ⟨a, as⟩
      · exact absurd (by simpa using congrArg List.reverse hd) hne
      · rw [hword, hd]
        show [(a :: as).reverse.asString] = [w]
        rw [← hd, List.reverse_reverse]
        rfl
    | cons w' ws' =>
      show splitWsAux (w.data ++ ' ' :: joinWords (w' :: ws')) [] = w :: w' :: ws'
      rw [splitWsAux_word w.data _ [] hall, List.append_nil]
      rcases hd : w.data.reverse with _ | ⟨a, as⟩
      · exact absurd (by simpa using congrArg List.reverse hd) hne
      · simp only [splitWsAux, show pyIsSpace ' ' = true from rfl, if_true]
        rw [ih (fun x hx => h x (List.mem_cons_of_mem _ hx))]
        congr 1
        rw [← hd, List.reverse_reverse]
        rfl

theorem splitWsAux_dropWhile : ∀ (l : List Char),
    splitWsAux (l.dropWhile pyIsSpace) [] = splitWsAux l [] := by
  intro l
  induction l with
  | nil => rfl
  | cons c cs ih =>
    by_cases hc : pyIsSpace c = true
    · rw [List.dropWhile_cons]
      simp only [hc, if_true]
      rw [ih]
      simp [splitWsAux, hc]
    · rw [List.dropWhile_cons]
      rw [Bool.not_eq_true] at hc
      simp [hc]

/-- Splitting is invariant under whitespace normalization: the words of the
re-joined words of `t` are the words of `t`. -/
theorem pySplitWs_normalizeWs (t : String) :
    pySplitWs (normalizeWs t) = pySplitWs t := by
  unfold normalizeWs pySplitWs
  rw [show ((joinWords (splitWsAux t.data [])).asString).data =
    joinWords (splitWsAux t.data []) from rfl]
  exact splitWsAux_joinWords _ (splitWsAux_tokens t.data [] rfl)

/-- Splitting is invariant under `str.strip()`. -/
theorem pySplitWs_pyStrip (u : String) :
    pySplitWs (pyStrip u) = pySplitWs u := by
  unfold pyStrip pySplitWs
  rw [show ((((u.data.dropWhile pyIsSpace).reverse.dropWhile
      pyIsSpace).reverse).asString).data =
    ((u.data.dropWhile pyIsSpace).reverse.dropWhile pyIsSpace).reverse from rfl]
  have h1 : splitWsAux (u.data.dropWhile pyIsSpace) [] = splitWsAux u.data [] :=
    splitWsAux_dropWhile u.data
  rw [← h1]
  have hdecomp : u.data.dropWhile pyIsSpace =
      ((u.data.dropWhile pyIsSpace).reverse.dropWhile pyIsSpace).reverse ++
        ((u.data.dropWhile pyIsSpace).reverse.takeWhile pyIsSpace).reverse := by
    have hsplit := List.takeWhile_append_dropWhile (p := pyIsSpace)
      (l := (u.data.dropWhile pyIsSpace).reverse)
    calc u.data.dropWhile pyIsSpace
    _ = ((u.data.dropWhile pyIsSpace).reverse).reverse := (List.reverse_reverse _).symm
    _ = ((u.data.dropWhile pyIsSpace).reverse.takeWhile pyIsSpace ++
          (u.data.dropWhile pyIsSpace).reverse.dropWhile pyIsSpace).reverse := by
        rw [hsplit]
    _ = _ := by rw [List.reverse_append]
  have hws : (((u.data.dropWhile pyIsSpace).reverse.takeWhile
      pyIsSpace).reverse).all pyIsSpace = true := by
    rw [List.all_reverse, List.all_eq_true]
    exact fun x hx => List.mem_takeWhile_imp hx
  conv_rhs => rw [hdecomp]
  exact (splitWsAux_append_space _ _ [] hws).symm

theorem lowerAscii_length (s : String) : (lowerAscii s).length = s.length := by
  show ((s.data.map Char.toLower).asString).data.length = s.data.length
  rw [show ((s.data.map Char.toLower).asString).data = s.data.map Char.toLower from rfl]
  exact List.length_map _ _

theorem joinWords_length_ge (p0 p1 : String) (rest : List String) :
    p0.length + p1.length + 1 ≤ (joinWords (p0 :: p1 :: rest)).length := by
  have h2 : p1.length ≤ (joinWords (p1 :: rest)).length := by
    cases rest with
    | nil => exact Nat.le_refl _
    | cons r rs =>
      show p1.data.length ≤ (p1.data ++ ' ' :: joinWords (r :: rs)).length
      rw [List.length_append]
      omega
  show p0.data.length + p1.length + 1 ≤ (p0.data ++ ' ' :: joinWords (p1 :: rest)).length
  rw [List.length_append, List.length_cons]
  have : (joinWords (p1 :: rest)).length = (joinWords (p1 :: rest)).length := rfl
  omega

/-! ## Claim C2 -/

/-- **C2.** If the reasoning engine fails with a rate-limit (429) error on
exactly the first `k` attempts and then succeeds, then for every
`k < MAX_RETRIES = 5` `smart_invoke` returns the success value; and if every
attempt fails with a rate-limit error, it raises the distinguished
"Too many retries due to rate-limiting" `RuntimeError` after exactly 5
attempts, never fewer or more. -/
theorem smart_invoke_rate_limit_bound (agent : Nat → InvokeOutcome)
    (v : String) (k : Nat) :
    (k < MAX_RETRIES → (∀ i, i < k → isRateLimited (agent i) = true) →
      agent k = .ok v → smartInvoke agent = (.success v, k + 1)) ∧
    ((∀ i, i < MAX_RETRIES → isRateLimited (agent i) = true) →
      smartInvoke agent = (.tooManyRetries tooManyRetriesMsg, MAX_RETRIES)) := by
  constructor
  · intro hk hrl hok
    unfold smartInvoke
    have hadv := smartInvokeFrom_advance agent k 0
      (fun i _ h2 => hrl i (by omega)) (by omega)
    simp only [Nat.zero_add] at hadv
    rw [hadv]
    unfold smartInvokeFrom
    simp [hk, hok]
  · intro hrl
    unfold smartInvoke
    have hadv := smartInvokeFrom_advance agent MAX_RETRIES 0
      (fun i _ h2 => hrl i (by omega)) (by omega)
    simp only [Nat.zero_add] at hadv
    rw [hadv]
    unfold smartInvokeFrom
    simp

/-- Witness for C2: two rate-limited attempts then success yields the value
after 3 attempts; constant rate-limiting yields the distinguished error
after exactly 5 attempts. -/
theorem smart_invoke_rate_limit_bound_witness :
    smartInvoke agentTwoRateLimits = (.success "done", 3) ∧
    smartInvoke agentAlwaysRateLimited = (.tooManyRetries tooManyRetriesMsg, 5) := by
  constructor
  · exact (smart_invoke_rate_limit_bound agentTwoRateLimits "done" 2).1
      (by decide) (fun i hi => by interval_cases i <;> decide) (by decide)
  · exact (smart_invoke_rate_limit_bound agentAlwaysRateLimited "" 0).2
      (fun i _ => by
        show isRateLimited (.exn "error 429: resource exhausted") = true
        decide)

/-! ## Claim C1 -/

/-- **C1.** Whenever `SystemHandler.try_handle` reports the (normalized)
input handled, `CommandDispatcher.process_command` returns the router's
outcome as is: the planning graph never runs and the reasoning engine is
invoked zero times. -/
theorem router_priority_no_engine (ctx : DispatchCtx) (raw : String)
    (f : Bool) (steps : List Step)
    (h : tryHandle ctx.router (normalizeWs raw) = .ok ⟨f, true, steps⟩) :
    processCommand ctx raw = .ok ⟨steps, true, f, false, none, 0, ctx.history⟩ := by
  unfold processCommand
  simp [h]

/-- Witness for C1: the `help` input is handled by the router and the engine
is never invoked. -/
theorem router_priority_no_engine_witness :
    processCommand stubDispatchCtx "help" =
      .ok ⟨[.say helpText], true, false, false, none, 0, []⟩ :=
  router_priority_no_engine stubDispatchCtx "help" false [.say helpText] (by rfl)

/-! ## Claim C3 -/

/-- Under the always-tool-calling stub, starting from `LLMPlanning` with a
step budget `f`, the graph never reaches `Respond`: the budget runs out with
`(f + 2) / 3` further engine calls made (the three-step
`LLMPlanning → ParseAction → ToolExecutor` cycle). -/
theorem runGraph_alwaysTool_cycle (tool : ToolCall → String) :
    ∀ (f : Nat) (st : GState) (calls : Nat),
      ∃ msgs, runGraph llmAlwaysToolCall tool f .llmPlanning st calls =
        .recursionLimit msgs (calls + (f + 2) / 3) := by
  intro f
  induction f using Nat.strong_induction_on with
  | _ f ih =>
    match f with
    | 0 =>
      intro st calls
      exact ⟨st.messages, by simp [runGraph]⟩
    | 1 =>
      intro st calls
      exact ⟨(callLLMNode llmAlwaysToolCall st).messages, by
        simp [runGraph, callLLMNode, llmAlwaysToolCall, isFinalAnswerRoute,
          List.getLast?_concat]⟩
    | 2 =>
      intro st calls
      exact ⟨(parseActionNode (callLLMNode llmAlwaysToolCall st)).messages, by
        simp [runGraph, callLLMNode, llmAlwaysToolCall, isFinalAnswerRoute,
          parseActionNode, List.getLast?_concat]⟩
    | (m + 3) =>
      intro st calls
      have hm : m < m + 3 := by omega
      obtain ⟨msgs, heq⟩ := ih m hm
        (toolExecutorNode tool
          (parseActionNode (callLLMNode llmAlwaysToolCall st))) (calls + 1)
      refine ⟨msgs, ?_⟩
      calc runGraph llmAlwaysToolCall tool (m + 3) .llmPlanning st calls
      _ = runGraph llmAlwaysToolCall tool m .llmPlanning
            (toolExecutorNode tool
              (parseActionNode (callLLMNode llmAlwaysToolCall st))) (calls + 1) := by
            simp [runGraph, callLLMNode, llmAlwaysToolCall, isFinalAnswerRoute,
              parseActionNode, List.getLast?_concat]
      _ = .recursionLimit msgs (calls + 1 + (m + 2) / 3) := heq
      _ = .recursionLimit msgs (calls + (m + 3 + 2) / 3) := by
            congr 1
            omega

/-- **C3 (amended).** When the reasoning engine always requests a (no-op)
tool call and never returns a final answer, `GraphAgent.run` always
terminates: langgraph's recursion limit — `Config.AGENT_MAX_ITERATIONS`,
counted in node super-steps, not plan/tool cycles — aborts the run with
`GraphRecursionError`, which `run` converts into the generic
"An error occurred while processing your request. Please try again."
message; for limit `L` the engine is invoked `(L + 1) / 3` times. -/
theorem iteration_limit_terminates_generic_error (tool : ToolCall → String)
    (L : Nat) (history : List Msg) (input : String)
    (h : containsControlChars input = false) :
    (graphAgentRun llmAlwaysToolCall tool L history input).text = graphErrorMsg ∧
    (graphAgentRun llmAlwaysToolCall tool L history input).engineCalls = (L + 1) / 3 := by
  unfold graphAgentRun
  cases L with
  | zero => simp [h, runGraph]
  | succ l =>
    obtain ⟨msgs, heq⟩ :=
      runGraph_alwaysTool_cycle tool l ⟨history ++ [.human input], ""⟩ 0
    have hstep : runGraph llmAlwaysToolCall tool (l + 1) .userInput
        ⟨history ++ [.human input], ""⟩ 0 =
        runGraph llmAlwaysToolCall tool l .llmPlanning
          ⟨history ++ [.human input], ""⟩ 0 := by
      simp [runGraph]
    simp only [h, Bool.false_eq_true, if_false, hstep, heq]
    simp

/-- Witness for the amended C3. -/
theorem iteration_limit_terminates_generic_error_witness :
    (graphAgentRun llmAlwaysToolCall (fun _ => "tool-ok") 10 [] "loop").text =
      graphErrorMsg ∧
    (graphAgentRun llmAlwaysToolCall (fun _ => "tool-ok") 10 [] "loop").engineCalls =
      (10 + 1) / 3 :=
  iteration_limit_terminates_generic_error (fun _ => "tool-ok") 10 [] "loop" (by decide)

/-- **C3 (counterexample).** With the default limit
`AGENT_MAX_ITERATIONS = 10` and the always-tool-calling stub, the delivered
outcome is the generic error message, not a
"could not complete within iteration limit" outcome, and the engine runs 3
times, not 10: the recursion limit counts node super-steps, not plan/tool
iterations, and no iteration-limit message exists in the code. -/
theorem claim_c3_counterexample :
    (graphAgentRun llmAlwaysToolCall (fun _ => "ok") AGENT_MAX_ITERATIONS [] "hi").text =
      graphErrorMsg ∧
    (graphAgentRun llmAlwaysToolCall (fun _ => "ok") AGENT_MAX_ITERATIONS [] "hi").text ≠
      "could not complete within iteration limit" ∧
    (graphAgentRun llmAlwaysToolCall (fun _ => "ok") AGENT_MAX_ITERATIONS [] "hi").engineCalls = 3 ∧
    (3 : Nat) ≠ AGENT_MAX_ITERATIONS := by
  decide

/-! ## Claim C5 -/

/-- **C5.** A reasoning-engine reply carrying no tool calls whose text does
not begin (case-insensitively, after stripping) with `final answer:` drives
one `LLMPlanning → ParseAction → Respond` pass: the synthetic
could-not-determine assistant message is appended and delivered as the final
answer, with exactly one engine call — no loop and no exception out of the
parse step. -/
theorem malformed_response_fail_secure (tool : ToolCall → String)
    (c input : String) (history : List Msg) (L : Nat) (hL : 4 ≤ L)
    (hin : containsControlChars input = false)
    (hc : strStartsWith (lowerAscii (pyStrip c)) "final answer:" = false) :
    graphAgentRun (fun _ => .reply c []) tool L history input =
      ⟨parseErrorMsg, 1, history ++ [.human input, .ai c [], .ai parseErrorMsg []]⟩ := by
  obtain ⟨l, rfl⟩ : ∃ l, L = l + 4 := ⟨L - 4, by omega⟩
  unfold graphAgentRun
  simp only [hin, Bool.false_eq_true, if_false]
  have hpath : runGraph (fun _ => .reply c []) tool (l + 4) .userInput
      ⟨history ++ [.human input], ""⟩ 0 =
      .finished
        (respondNodeText (parseActionNode (callLLMNode (fun _ => .reply c []) ⟨history ++ [.human input], ""⟩)))
        (parseActionNode (callLLMNode (fun _ => .reply c []) ⟨history ++ [.human input], ""⟩)).messages 1 := by
    simp [runGraph, callLLMNode, isFinalAnswerRoute, parseActionNode,
      List.getLast?_concat, hc]
  rw [hpath]
  simp [callLLMNode, parseActionNode, respondNodeText, List.getLast?_concat,
    show stripFinalAnswerMarker parseErrorMsg = parseErrorMsg from by decide,
    show containsControlChars parseErrorMsg = false from by decide]

/-- Witness for C5. -/
theorem malformed_response_fail_secure_witness :
    graphAgentRun (fun _ => .reply "gibberish" []) (fun _ => "ok") 10 [] "hi" =
      ⟨parseErrorMsg, 1, [.human "hi", .ai "gibberish" [], .ai parseErrorMsg []]⟩ := by
  have h := malformed_response_fail_secure (fun _ => "ok") "gibberish" "hi" []
    10 (by omega) (by decide) (by decide)
  simpa using h

/-! ## Claim C6 -/

/-- **C6 (counterexample).** The reply `" Final Answer: hi"` begins with the
marker after whitespace normalization — `_is_final_answer` routes it to
`Respond` — yet the delivered text still carries the marker, because
`_respond_to_user`'s regex is anchored at the unstripped start: the text is
`"Final Answer: hi"`, not `"hi"`. -/
theorem claim_c6_counterexample :
    strStartsWith (lowerAscii (pyStrip " Final Answer: hi")) "final answer:" = true ∧
    (graphAgentRun llmLeadingSpaceFinal (fun _ => "ok") 10 [] "ok").text =
      "Final Answer: hi" ∧
    (graphAgentRun llmLeadingSpaceFinal (fun _ => "ok") 10 [] "ok").text ≠ "hi" := by
  decide

/-- **C6 (amended).** When a tool-call-free reply bears the marker at the
very start of its text (position 0, case-insensitively) — so the graph
routes it to `Respond` — the delivered text is the reply with the marker and
surrounding whitespace removed, or the sanitization notice if that stripped
text holds control characters; exactly one engine call is made. -/
theorem final_answer_marker_stripped (tool : ToolCall → String)
    (c input : String) (history : List Msg) (L : Nat) (hL : 3 ≤ L)
    (hin : containsControlChars input = false)
    (hc : lowerAscii (c.take 13) = "final answer:")
    (hroute : strStartsWith (lowerAscii (pyStrip c)) "final answer:" = true) :
    graphAgentRun (fun _ => .reply c []) tool L history input =
      ⟨if containsControlChars (pyStrip (c.drop 13)) then sanitizedNotice
        else pyStrip (c.drop 13), 1, history ++ [.human input, .ai c []]⟩ := by
  obtain ⟨l, rfl⟩ : ∃ l, L = l + 3 := ⟨L - 3, by omega⟩
  have hc0 : c ≠ "" := by
    intro h0
    subst h0
    exact absurd hc (by decide)
  unfold graphAgentRun
  simp only [hin, Bool.false_eq_true, if_false]
  have hpath : runGraph (fun _ => .reply c []) tool (l + 3) .userInput
      ⟨history ++ [.human input], ""⟩ 0 =
      .finished
        (respondNodeText (callLLMNode (fun _ => .reply c []) ⟨history ++ [.human input], ""⟩))
        (callLLMNode (fun _ => .reply c []) ⟨history ++ [.human input], ""⟩).messages 1 := by
    simp [runGraph, callLLMNode, isFinalAnswerRoute, List.getLast?_concat,
      hroute, hc0]
  rw [hpath]
  simp [callLLMNode, respondNodeText, List.getLast?_concat,
    stripFinalAnswerMarker, hc]

/-- Witness for the amended C6. -/
theorem final_answer_marker_stripped_witness :
    graphAgentRun (fun _ => .reply "Final Answer:   42  " []) (fun _ => "ok")
      10 [] "hi" =
      ⟨"42", 1, [.human "hi", .ai "Final Answer:   42  " []]⟩ := by
  have h := final_answer_marker_stripped (fun _ => "ok") "Final Answer:   42  "
    "hi" [] 10 (by omega) (by decide) (by decide) (by decide)
  rw [h]
  decide

/-! ### Router totality lemmas (the only failure source is the bookmark read) -/

theorem loadBookmarks_ok (ctx : RouterCtx) (h : ∀ m, ctx.load ≠ .ioError m) :
    ∃ p, loadBookmarks ctx = .ok p := by
  unfold loadBookmarks
  rcases hl : ctx.load with bm | _ | _ | m
  · exact ⟨_, rfl⟩
  · exact ⟨_, rfl⟩
  · exact ⟨_, rfl⟩
  · exact absurd hl (h m)

theorem handleBookmarkAdd_ok (ctx : RouterCtx) (parts : List String)
    (h : ∀ m, ctx.load ≠ .ioError m) :
    ∃ steps, handleBookmarkAdd ctx parts = .ok steps := by
  obtain ⟨⟨bm, lsteps⟩, hp⟩ := loadBookmarks_ok ctx h
  unfold handleBookmarkAdd
  simp only [hp]
  repeat' split
  all_goals exact ⟨_, rfl⟩

theorem handleBookmarkList_ok (ctx : RouterCtx) (parts : List String)
    (h : ∀ m, ctx.load ≠ .ioError m) :
    ∃ steps, handleBookmarkList ctx parts = .ok steps := by
  obtain ⟨⟨bm, lsteps⟩, hp⟩ := loadBookmarks_ok ctx h
  unfold handleBookmarkList
  simp only [hp]
  repeat' split
  all_goals exact ⟨_, rfl⟩

theorem handleBookmarkJump_ok (ctx : RouterCtx) (parts : List String)
    (h : ∀ m, ctx.load ≠ .ioError m) :
    ∃ steps, handleBookmarkJump ctx parts = .ok steps := by
  obtain ⟨⟨bm, lsteps⟩, hp⟩ := loadBookmarks_ok ctx h
  unfold handleBookmarkJump
  simp only [hp]
  repeat' split
  all_goals exact ⟨_, rfl⟩

theorem handleBookmarkRemove_ok (ctx : RouterCtx) (parts : List String)
    (h : ∀ m, ctx.load ≠ .ioError m) :
    ∃ steps, handleBookmarkRemove ctx parts = .ok steps := by
  obtain ⟨⟨bm, lsteps⟩, hp⟩ := loadBookmarks_ok ctx h
  unfold handleBookmarkRemove
  simp only [hp]
  repeat' split
  all_goals exact ⟨_, rfl⟩

theorem clearAllBookmarks_ok (ctx : RouterCtx)
    (h : ∀ m, ctx.load ≠ .ioError m) :
    ∃ steps, clearAllBookmarks ctx = .ok steps := by
  obtain ⟨⟨bm, lsteps⟩, hp⟩ := loadBookmarks_ok ctx h
  unfold clearAllBookmarks
  simp only [hp]
  repeat' split
  all_goals exact ⟨_, rfl⟩

theorem handleBookmarkClear_ok (ctx : RouterCtx) (parts : List String)
    (h : ∀ m, ctx.load ≠ .ioError m) :
    ∃ steps, handleBookmarkClear ctx parts = .ok steps := by
  obtain ⟨⟨bm, lsteps⟩, hp⟩ := loadBookmarks_ok ctx h
  unfold handleBookmarkClear
  simp only [hp]
  repeat' split
  all_goals first
    | exact ⟨_, rfl⟩
    | exact clearAllBookmarks_ok ctx h

theorem runBookmarkHandler_ok (ctx : RouterCtx) (sub : String)
    (parts : List String) (h : ∀ m, ctx.load ≠ .ioError m) :
    ∃ steps, runBookmarkHandler ctx sub parts = .ok steps := by
  unfold runBookmarkHandler
  repeat' split
  · exact handleBookmarkAdd_ok ctx parts h
  · exact handleBookmarkList_ok ctx parts h
  · exact handleBookmarkJump_ok ctx parts h
  · exact handleBookmarkRemove_ok ctx parts h
  · exact handleBookmarkClear_ok ctx parts h
  · exact ⟨_, rfl⟩

theorem bookmarkBranch_ok (ctx : RouterCtx) (parts : List String)
    (h : ∀ m, ctx.load ≠ .ioError m) :
    ∃ steps, bookmarkBranch ctx parts = .ok steps := by
  unfold bookmarkBranch
  dsimp only
  split
  · exact ⟨_, rfl⟩
  · rcases hm : getCloseMatches1 (lowerAscii (parts.getD 2 ""))
        bookmarkSubcommands with _ | chosen
    · exact ⟨_, rfl⟩
    · dsimp only
      obtain ⟨hs, hhs⟩ := runBookmarkHandler_ok ctx chosen parts h
      rw [hhs]
      exact ⟨_, rfl⟩

theorem tryHandle_ok (ctx : RouterCtx) (t : String)
    (h : ∀ m, ctx.load ≠ .ioError m) :
    ∃ r, tryHandle ctx t = .ok r := by
  unfold tryHandle
  dsimp only
  obtain ⟨bs, hbs⟩ := bookmarkBranch_ok ctx (pySplitWs (normalizeWs t)) h
  rw [hbs]
  generalize handleEnableVoiceMode ctx.voiceFlag (normalizeWs t) = r₁
  generalize handleDisableVoiceMode r₁.1 (normalizeWs t) = r₂
  generalize handleOpenWebsite ctx (normalizeWs t) = r₃
  generalize handleOpenApplication ctx (normalizeWs t) = r₄
  generalize handleCloseApplication ctx (normalizeWs t) = r₅
  generalize handleGetWeather ctx (normalizeWs t) = r₆
  generalize handleSearch ctx (normalizeWs t) = r₇
  by_cases h₁ : r₁.2.1 = true
  · rw [if_pos h₁]; exact ⟨_, rfl⟩
  rw [if_neg h₁]
  by_cases h₂ : r₂.2.1 = true
  · rw [if_pos h₂]; exact ⟨_, rfl⟩
  rw [if_neg h₂]
  by_cases h₃ : (decide (lowerAscii (normalizeWs t) = "zira help") ||
      decide (lowerAscii (normalizeWs t) = "help zira") ||
      decide (lowerAscii (normalizeWs t) = "help")) = true
  · rw [if_pos h₃]; exact ⟨_, rfl⟩
  rw [if_neg h₃]
  by_cases h₄ : r₃.1 = true
  · rw [if_pos h₄]; exact ⟨_, rfl⟩
  rw [if_neg h₄]
  by_cases h₅ : r₄.1 = true
  · rw [if_pos h₅]; exact ⟨_, rfl⟩
  rw [if_neg h₅]
  by_cases h₆ : r₅.1 = true
  · rw [if_pos h₆]; exact ⟨_, rfl⟩
  rw [if_neg h₆]
  by_cases h₇ : r₆.1 = true
  · rw [if_pos h₇]; exact ⟨_, rfl⟩
  rw [if_neg h₇]
  by_cases h₈ : r₇.1 = true
  · rw [if_pos h₈]; exact ⟨_, rfl⟩
  rw [if_neg h₈]
  by_cases h₉ : (2 ≤ (pySplitWs (normalizeWs t)).length &&
      decide (lowerAscii ((pySplitWs (normalizeWs t)).getD 0 "") = "zira") &&
      decide (lowerAscii ((pySplitWs (normalizeWs t)).getD 1 "") = "bookmark")) = true
  · rw [if_pos h₉]; exact ⟨_, rfl⟩
  rw [if_neg h₉]
  exact ⟨_, rfl⟩


/-! ## Claim C7 -/

/-- **C7.** For every input whose whitespace-separated words are
`<zira> <bookmark> <sub> ...` (lead tokens case-insensitive, any spacing),
with the bookmark storage raising nothing unhandled: if the lowered `<sub>`
is within `difflib.get_close_matches`' 0.75 cutoff of a known sub-command,
the router resolves it to the closest sub-command (announcing the
interpretation when non-exact) and dispatches that sub-command's handler;
if it is beyond the threshold the router reports an unknown sub-command and
dispatches no handler; in both cases the input is reported handled and the
voice flag is untouched. -/
theorem bookmark_fuzzy_dispatch (ctx : RouterCtx) (raw : String)
    (p0 p1 sub : String) (rest : List String)
    (hsplit : pySplitWs raw = p0 :: p1 :: sub :: rest)
    (hp0 : lowerAscii p0 = "zira") (hp1 : lowerAscii p1 = "bookmark")
    (hload : ∀ m, ctx.load ≠ .ioError m) :
    (∀ chosen, getCloseMatches1 (lowerAscii sub) bookmarkSubcommands = some chosen →
      ∃ hsteps, runBookmarkHandler ctx chosen (p0 :: p1 :: sub :: rest) = .ok hsteps ∧
        tryHandle ctx raw = .ok ⟨ctx.voiceFlag, true,
          (if chosen ≠ lowerAscii sub then
            [Step.say ("Interpreting '" ++ lowerAscii sub ++ "' as '" ++ chosen ++ "'.")]
          else []) ++ [Step.bmDispatch chosen] ++ hsteps⟩) ∧
    (getCloseMatches1 (lowerAscii sub) bookmarkSubcommands = none →
      tryHandle ctx raw = .ok ⟨ctx.voiceFlag, true,
        [Step.say ("Unknown bookmark command: '" ++ lowerAscii sub ++ "'")]⟩) := by
  have hs : pySplitWs (normalizeWs raw) = p0 :: p1 :: sub :: rest := by
    rw [pySplitWs_normalizeWs]; exact hsplit
  have hstrip : pySplitWs (pyStrip (normalizeWs raw)) = p0 :: p1 :: sub :: rest := by
    rw [pySplitWs_pyStrip]; exact hs
  have hne_open : ("zira" : String) ≠ "open" := by decide
  have hne_close : ("zira" : String) ≠ "close" := by decide
  have hne_weather : ("zira" : String) ≠ "weather" := by decide
  have hne_search : ("zira" : String) ≠ "search" := by decide
  -- the voice toggles do not match
  have hvm : ∀ verbs, verbs.contains "zira" = false →
      voiceCmdMatch verbs (normalizeWs raw) = false := by
    intro verbs hv
    unfold voiceCmdMatch
    rw [hstrip]
    cases rest with
    | nil => simp only [hp0, hv, Bool.false_and]
    | cons r rs => rfl
  have hev : ∀ b, handleEnableVoiceMode b (normalizeWs raw) = (b, false, []) := by
    intro b
    unfold handleEnableVoiceMode
    rw [hvm ["enable", "activate"] (by decide)]
    rfl
  have hdv : ∀ b, handleDisableVoiceMode b (normalizeWs raw) = (b, false, []) := by
    intro b
    unfold handleDisableVoiceMode
    rw [hvm ["disable", "deactivate", "exit"] (by decide)]
    rfl
  -- the verb handlers do not match
  have hwebm : websiteMatch (normalizeWs raw) = none := by
    unfold websiteMatch
    rw [hstrip]
    cases rest with
    | nil => simp [hp0, hne_open]
    | cons r rs => rfl
  have hweb : handleOpenWebsite ctx (normalizeWs raw) = (false, []) := by
    unfold handleOpenWebsite; rw [hwebm]
  have hopenm : verbMatch "open" (normalizeWs raw) = none := by
    unfold verbMatch; rw [hstrip]; simp [hp0, hne_open]
  have hopen : handleOpenApplication ctx (normalizeWs raw) = (false, []) := by
    unfold handleOpenApplication; rw [hopenm]
  have hclosem : verbMatch "close" (normalizeWs raw) = none := by
    unfold verbMatch; rw [hstrip]; simp [hp0, hne_close]
  have hclose : handleCloseApplication ctx (normalizeWs raw) = (false, []) := by
    unfold handleCloseApplication; rw [hclosem]
  have hweatherm : weatherMatch (normalizeWs raw) = none := by
    unfold weatherMatch; rw [hstrip]; simp [hp0, hne_weather]
  have hweather : handleGetWeather ctx (normalizeWs raw) = (false, []) := by
    unfold handleGetWeather; rw [hweatherm]
  have hsearchm : verbMatch "search" (normalizeWs raw) = none := by
    unfold verbMatch; rw [hstrip]; simp [hp0, hne_search]
  have hsearch : handleSearch ctx (normalizeWs raw) = (false, []) := by
    unfold handleSearch; rw [hsearchm]
  -- the help keywords do not match: the input is at least 13 characters long
  have hlen : 13 ≤ (normalizeWs raw).length := by
    have hj := joinWords_length_ge p0 p1 (sub :: rest)
    have h0 : p0.length = 4 := by
      have hl := lowerAscii_length p0
      rw [hp0] at hl
      simpa using hl.symm
    have h1 : p1.length = 8 := by
      have hl := lowerAscii_length p1
      rw [hp1] at hl
      simpa using hl.symm
    show 13 ≤ ((joinWords (pySplitWs raw)).asString).length
    rw [show ((joinWords (pySplitWs raw)).asString).length =
      (joinWords (pySplitWs raw)).length from rfl, hsplit]
    omega
  have hne_help : ∀ lit : String, lit.length < 13 →
      ¬(lowerAscii (normalizeWs raw) = lit) := by
    intro lit hlit heq
    have hlh := congrArg String.length heq
    rw [lowerAscii_length] at hlh
    omega
  have hh1 : decide (lowerAscii (normalizeWs raw) = "zira help") = false :=
    decide_eq_false (hne_help _ (by decide))
  have hh2 : decide (lowerAscii (normalizeWs raw) = "help zira") = false :=
    decide_eq_false (hne_help _ (by decide))
  have hh3 : decide (lowerAscii (normalizeWs raw) = "help") = false :=
    decide_eq_false (hne_help _ (by decide))
  -- the bookmark gate holds
  have hgl : decide (2 ≤ (p0 :: p1 :: sub :: rest).length) = true :=
    decide_eq_true (by simp only [List.length_cons]; omega)
  -- the whole router call reduces to the bookmark branch
  have hbb : tryHandle ctx raw = (match bookmarkBranch ctx (p0 :: p1 :: sub :: rest) with
      | .error e => .error e
      | .ok bsteps => .ok ⟨ctx.voiceFlag, true, bsteps⟩) := by
    unfold tryHandle
    simp only [hev, hdv, hweb, hopen, hclose, hweather, hsearch,
      hh1, hh2, hh3, hs, hp0, hp1, hgl, List.getD_cons_zero, List.getD_cons_succ]
    simp
  have hlen3 : ¬((p0 :: p1 :: sub :: rest).length < 3) := by
    simp
  have hbranch : bookmarkBranch ctx (p0 :: p1 :: sub :: rest) =
      (match getCloseMatches1 (lowerAscii sub) bookmarkSubcommands with
       | some chosen =>
         (match runBookmarkHandler ctx chosen (p0 :: p1 :: sub :: rest) with
          | .error e => .error e
          | .ok hsteps => .ok ((if chosen ≠ lowerAscii sub then
              [Step.say ("Interpreting '" ++ lowerAscii sub ++ "' as '" ++ chosen ++ "'.")]
            else []) ++ [Step.bmDispatch chosen] ++ hsteps))
       | none => .ok [Step.say ("Unknown bookmark command: '" ++ lowerAscii sub ++ "'")]) := by
    unfold bookmarkBranch
    rw [if_neg hlen3]
    simp only [List.getD_cons_zero, List.getD_cons_succ]
  constructor
  · intro chosen hchosen
    obtain ⟨hsteps, hrun⟩ :=
      runBookmarkHandler_ok ctx chosen (p0 :: p1 :: sub :: rest) hload
    refine ⟨hsteps, hrun, ?_⟩
    rw [hbb, hbranch, hchosen]
    dsimp only
    rw [hrun]
  · intro hnone
    rw [hbb, hbranch, hnone]

/-- Witness for C7: the typo `ad` (distance 1 from `add`) is fuzzy-matched
and dispatched to the add handler; `xyz` is reported unknown with no
dispatch; both inputs are handled. -/
theorem bookmark_fuzzy_dispatch_witness :
    (∃ hsteps, runBookmarkHandler stubRouterCtx "add"
        ["zira", "bookmark", "ad", "myalias", "/tmp"] = .ok hsteps ∧
      tryHandle stubRouterCtx "zira bookmark ad myalias /tmp" =
        .ok ⟨false, true, [Step.say "Interpreting 'ad' as 'add'.",
          Step.bmDispatch "add"] ++ hsteps⟩) ∧
    tryHandle stubRouterCtx "zira bookmark xyz" =
      .ok ⟨false, true, [Step.say "Unknown bookmark command: 'xyz'"]⟩ := by
  constructor
  · obtain ⟨hsteps, hrun, htry⟩ :=
      (bookmark_fuzzy_dispatch stubRouterCtx "zira bookmark ad myalias /tmp"
        "zira" "bookmark" "ad" ["myalias", "/tmp"] (by decide) (by decide)
        (by decide) (fun _ hm => nomatch hm)).1 "add" (by decide)
    exact ⟨hsteps, hrun, by simpa using htry⟩
  · exact (bookmark_fuzzy_dispatch stubRouterCtx "zira bookmark xyz"
      "zira" "bookmark" "xyz" [] (by decide) (by decide) (by decide)
      (fun _ hm => nomatch hm)).2 (by decide)

/-! ## Claim C9 -/

/-- **C9.** Any input containing a character outside Python's
`string.printable` is rejected by `GraphAgent.run` before the graph starts:
the invalid-input message is delivered, the reasoning engine is never
called, and the session history is left unchanged.  Moreover every
printable character is ASCII, so every non-ASCII character (e.g. accented
text) triggers this rejection. -/
theorem unprintable_input_rejected (llm : List Msg → LLMBehavior)
    (tool : ToolCall → String) (limit : Nat) (history : List Msg)
    (input : String) (c : Char) (hc : c ∈ input.data)
    (hp : pyPrintable c = false) :
    graphAgentRun llm tool limit history input = ⟨invalidInputMsg, 0, history⟩ ∧
    ∀ d : Char, pyPrintable d = true → d.toNat ≤ 0x7e := by
  constructor
  · have hcc : containsControlChars input = true := by
      unfold containsControlChars
      rw [List.any_eq_true]
      exact ⟨c, hc, by rw [hp]; rfl⟩
    unfold graphAgentRun
    simp [hcc]
  · intro d hd
    unfold pyPrintable at hd
    simp only [Bool.or_eq_true, Bool.and_eq_true, decide_eq_true_eq] at hd
    omega

/-- Witness for C9: `café` contains the non-ASCII `é` and is rejected with
no engine call and no history change. -/
theorem unprintable_input_rejected_witness :
    graphAgentRun stubDispatchCtx.llm stubDispatchCtx.agentTool 10 [] "café" =
      ⟨invalidInputMsg, 0, []⟩ ∧ ∀ d : Char, pyPrintable d = true → d.toNat ≤ 0x7e :=
  unprintable_input_rejected stubDispatchCtx.llm stubDispatchCtx.agentTool 10 []
    "café" 'é' (by decide) (by decide)

/-! ## Claim C4 -/

/-- **C4 (counterexample).** When reading the bookmarks file raises a
`PermissionError` — an exception `_load_bookmarks` does not catch — the input
`zira bookmark list` makes `process_command` propagate the raw exception to
its caller instead of returning an outcome. -/
theorem claim_c4_counterexample :
    processCommand permissionDeniedCtx "zira bookmark list" =
      .error (.storageError
        "PermissionError: [Errno 13] Permission denied: bookmarks.json") := by
  rfl

/-- **C4 (amended).** Provided the bookmark-storage read raises nothing
beyond the handled `FileNotFoundError`/`JSONDecodeError`, one full
`process_command` call returns normally for every input and every behaviour
of the reasoning engine, the registry tools, and the search tool — all their
exceptions are converted into retried calls, synthetic messages, or terminal
user-facing strings. -/
theorem orchestration_total (ctx : DispatchCtx) (raw : String)
    (h : ∀ m, ctx.router.load ≠ .ioError m) :
    ∃ out, processCommand ctx raw = .ok out := by
  obtain ⟨r, hr⟩ := tryHandle_ok ctx.router (normalizeWs raw) h
  unfold processCommand
  simp only [hr]
  split
  · exact ⟨_, rfl⟩
  · exact ⟨_, rfl⟩

/-- Witness for the amended C4. -/
theorem orchestration_total_witness :
    ∃ out, processCommand stubDispatchCtx "hello there" = .ok out :=
  orchestration_total stubDispatchCtx "hello there" (fun _ hm => nomatch hm)

/-! ## Claim C8 -/

/-- **C8.** For the input `open website https://example.com` (with the
`open_website` tool registered and succeeding with result `r`), the router
matches the website pattern, invokes the tool with exactly
`https://example.com` — original case preserved — reports the input handled,
and the planning graph and reasoning engine are never invoked. -/
theorem open_website_routes_to_tool (ctx : DispatchCtx) (r : String)
    (hreg : ctx.router.registry.contains "open_website" = true)
    (htool : ctx.router.tool "open_website" "https://example.com" = .ok r) :
    processCommand ctx "open website https://example.com" =
      .ok ⟨[.invokeTool "open_website" "https://example.com", .say r], true,
        ctx.router.voiceFlag, false, none, 0, ctx.history⟩ := by
  unfold processCommand tryHandle
  simp at hreg
  simp [handleEnableVoiceMode, handleDisableVoiceMode, handleOpenWebsite,
    invokeToolModel, hreg, htool,
    show ¬(2083 < "https://example.com".length) from by decide,
    show normalizeWs "open website https://example.com" =
      "open website https://example.com" from by decide,
    show voiceCmdMatch ["enable", "activate"] "open website https://example.com" =
      false from by decide,
    show voiceCmdMatch ["disable", "deactivate", "exit"]
      "open website https://example.com" = false from by decide,
    show lowerAscii "open website https://example.com" =
      "open website https://example.com" from by decide,
    show websiteMatch "open website https://example.com" =
      some "https://example.com" from by decide]

/-- Witness for C8. -/
theorem open_website_routes_to_tool_witness :
    processCommand stubDispatchCtx "open website https://example.com" =
      .ok ⟨[.invokeTool "open_website" "https://example.com",
        .say "ok: https://example.com"], true, false, false, none, 0, []⟩ :=
  open_website_routes_to_tool stubDispatchCtx "ok: https://example.com"
    (by decide) (by rfl)

/-! ## Claim C10 -/

/-- **C10.** For each of the `open <app>`, `close <app>`, and
`weather [in] <place>` handlers, an argument containing any of the shell
metacharacters `;` `&` `|` `$` backtick `<` `>` is rejected: the handler
reports the input handled with only the "avoid special characters" message
and the corresponding tool is never invoked. -/
theorem metachar_arguments_rejected (ctx : RouterCtx) :
    (∀ s app, verbMatch "open" s = some app →
      (strStartsWith app "http://" || strStartsWith app "https://") = false →
      hasShellMetachar app = true →
      handleOpenApplication ctx s =
        (true, [.say "Invalid application name. Please avoid special characters."])) ∧
    (∀ s app, verbMatch "close" s = some app → hasShellMetachar app = true →
      handleCloseApplication ctx s =
        (true, [.say "Invalid application name. Please avoid special characters."])) ∧
    (∀ s loc, weatherMatch s = some loc → hasShellMetachar loc = true →
      handleGetWeather ctx s =
        (true, [.say "Invalid location. Please avoid special characters."])) := by
  refine ⟨?_, ?_, ?_⟩
  · intro s app hm hurl hmeta
    unfold handleOpenApplication
    rw [hm]
    simp [hurl, hmeta]
  · intro s app hm hmeta
    unfold handleCloseApplication
    rw [hm]
    simp [hmeta]
  · intro s loc hm hmeta
    unfold handleGetWeather
    rw [hm]
    simp [hmeta]

/-- Witness for C10: concrete metacharacter arguments for all three
handlers. -/
theorem metachar_arguments_rejected_witness :
    handleOpenApplication stubRouterCtx "open foo;bar" =
      (true, [.say "Invalid application name. Please avoid special characters."]) ∧
    handleCloseApplication stubRouterCtx "close a|b" =
      (true, [.say "Invalid application name. Please avoid special characters."]) ∧
    handleGetWeather stubRouterCtx "weather in x$y" =
      (true, [.say "Invalid location. Please avoid special characters."]) :=
  ⟨(metachar_arguments_rejected stubRouterCtx).1 "open foo;bar" "foo;bar"
      (by decide) (by decide) (by decide),
   (metachar_arguments_rejected stubRouterCtx).2.1 "close a|b" "a|b"
      (by decide) (by decide),
   (metachar_arguments_rejected stubRouterCtx).2.2 "weather in x$y" "x$y"
      (by decide) (by decide)⟩

end UnityAI
